import Mathlib

/-!
Verification of the flight_mil_ita repository core against its specification.

The development shallowly embeds the two Python source files:
  - flight_mil_ita.py : the poll loop (debounce, geofence, fetch, CSV rows);
  - publish_adsb_report.py : the event store (SQLite), period bounds, queries.

Python floats are modelled by exact rationals (ℚ); the literal 1e-12 of the
ray-casting code is modelled by the rational 10⁻¹².  Fallible operations
(Python exceptions such as ZeroDivisionError) are modelled with Option.
-/

namespace FlightMilIta

/-! ## DebounceTracker (flight_mil_ita.py, main loop lines 246-280)

The poll loop keeps `last_mil_alert : Dict[str, float]`.  For each aircraft
it evaluates `now_ts - last_mil_alert.get(ac.hex, 0) < args.mil_cooldown`;
when false, it emits a row and an alert and sets `last_mil_alert[ac.hex] = now_ts`.
The map is modelled as a function `String → Option ℚ` (absent key = none,
`.get(hex, 0)` = `(last hex).getD 0`); times are rationals. -/

/-- One debounce decision of the poll loop for a sighting `s = (hex, now_ts)`:
returns the updated map and whether an alert is emitted.  Mirrors lines
246-280 of flight_mil_ita.py: skip when `now_ts - last.get(hex, 0) < cooldown`,
otherwise emit and record `now_ts`. -/
def debounceStep (cooldown : ℚ) (last : String → Option ℚ) (s : String × ℚ) :
    (String → Option ℚ) × Bool :=
  if s.2 - ((last s.1).getD 0) < cooldown then (last, false)
  else (Function.update last s.1 (some s.2), true)

/-- The debounce part of a poll cycle: fold `debounceStep` over the sightings,
collecting the sightings for which an alert (and a CSV row) is emitted. -/
def runDebounce (cooldown : ℚ) (last : String → Option ℚ) :
    List (String × ℚ) → (String → Option ℚ) × List (String × ℚ)
  | [] => (last, [])
  | s :: rest =>
    let p := debounceStep cooldown last s
    let r := runDebounce cooldown p.1 rest
    (r.1, (if p.2 then [s] else []) ++ r.2)

/-- The recorded times of the emitted alerts that concern hex `h`. -/
def alertTimes (h : String) (l : List (String × ℚ)) : List ℚ :=
  (l.filter (fun s => s.1 == h)).map Prod.snd

lemma alertTimes_cons (h : String) (s : String × ℚ) (l : List (String × ℚ)) :
    alertTimes h (s :: l) =
      if s.1 == h then s.2 :: alertTimes h l else alertTimes h l := by
  by_cases hs : s.1 == h <;> simp [alertTimes, hs]

lemma pairwise_sep_cons (c t0 t1 : ℚ) (ts : List ℚ) (hc : 0 ≤ c)
    (h01 : c ≤ t1 - t0)
    (h1 : List.Pairwise (fun a b => c ≤ b - a) (t1 :: ts)) :
    List.Pairwise (fun a b => c ≤ b - a) (t0 :: t1 :: ts) := by
  rcases List.pairwise_cons.mp h1 with ⟨hall, hts⟩
  refine List.pairwise_cons.mpr ⟨?_, h1⟩
  intro b hb
  rcases List.mem_cons.mp hb with rfl | hb
  · exact h01
  · have := hall b hb
    linarith

/-- Invariant of the debounce fold: prepending the currently recorded
last-alert time for `h` (if any) to the times of the alerts emitted for `h`,
all later entries are always at least `cooldown` apart. -/
lemma runDebounce_pairwise (c : ℚ) (hc : 0 ≤ c) (h : String) :
    ∀ (l : List (String × ℚ)) (st : String → Option ℚ),
      List.Pairwise (fun a b => c ≤ b - a)
        ((st h).toList ++ alertTimes h (runDebounce c st l).2)
  | [], st => by
    cases hsh : st h <;> simp [runDebounce, alertTimes, hsh]
  | s :: rest, st => by
    rcases s with ⟨sh, stime⟩
    by_cases hg : stime - ((st sh).getD 0) < c
    · have ih := runDebounce_pairwise c hc h rest st
      simpa [runDebounce, debounceStep, hg] using ih
    · have ih := runDebounce_pairwise c hc h rest
        (Function.update st sh (some stime))
      by_cases hsh : sh = h
      · have hup : Function.update st sh (some stime) h = some stime := by
          rw [← hsh]
          exact Function.update_same _ _ _
        rw [hup] at ih
        have hbeq : (sh == h) = true := by simpa using hsh
        cases hst : st h with
        | none =>
          simpa [runDebounce, debounceStep, hg, alertTimes_cons, hbeq, hst]
            using ih
        | some t0 =>
          have hsep : c ≤ stime - t0 := by
            rw [hsh, hst] at hg
            simpa using not_lt.mp hg
          simp only [runDebounce, debounceStep, if_neg hg, if_pos,
            List.singleton_append, alertTimes_cons, hbeq, if_true, hst,
            Option.toList_some, List.cons_append, List.nil_append] at ih ⊢
          exact pairwise_sep_cons c t0 stime _ hc hsep (by simpa using ih)
      · have hne : h ≠ sh := fun hh => hsh hh.symm
        rw [Function.update_noteq hne] at ih
        have hbeq : (sh == h) = false := by simpa using hsh
        simpa [runDebounce, debounceStep, hg, alertTimes_cons, hbeq] using ih

/-- C1: for every hex `h` and every sequence of sightings processed by the
poll loop (starting from the empty last-alert map), no two alert emissions
for `h` have recorded times less than the configured cooldown apart, and the
last-alert entry of a hex is updated by a debounce step only when that step
emits an alert for that very hex. -/
theorem debounce_cooldown_separation (c : ℚ) (hc : 0 ≤ c) (h : String)
    (l : List (String × ℚ)) :
    List.Pairwise (fun a b => c ≤ b - a)
      (alertTimes h (runDebounce c (fun _ => none) l).2) ∧
    ∀ (st : String → Option ℚ) (s : String × ℚ) (h2 : String),
      (debounceStep c st s).2 = false ∨ s.1 ≠ h2 →
      (debounceStep c st s).1 h2 = st h2 := by
  constructor
  · have := runDebounce_pairwise c hc h l (fun _ => none)
    simpa using this
  · intro st s h2 hcase
    by_cases hg : s.2 - ((st s.1).getD 0) < c
    · simp [debounceStep, hg]
    · simp only [debounceStep, if_neg hg] at hcase ⊢
      rcases hcase with hfalse | hne
      · simp at hfalse
      · exact Function.update_noteq (Ne.symm hne) _ st

/-- Witness for C1 at a concrete cooldown and sighting sequence. -/
theorem debounce_cooldown_separation_witness :
    (0 : ℚ) ≤ 1800 ∧
      List.Pairwise (fun a b => (1800 : ℚ) ≤ b - a)
        (alertTimes ("abc123")
          (runDebounce 1800 (fun _ => none)
            [(("abc123"), 1000000), (("abc123"), 1000600),
              (("abc123"), 1001801)]).2) :=
  ⟨by norm_num,
    (debounce_cooldown_separation 1800 (by norm_num) ("abc123")
      [(("abc123"), 1000000), (("abc123"), 1000600), (("abc123"), 1001801)]).1⟩

/-- C2 counterexample: the code defaults an absent last-alert entry to `0`
(`last_mil_alert.get(ac.hex, 0)`), not to "infinitely long ago"; with
`now = 0` and the default cooldown 1800 the very first sighting of a hex
does NOT fire an alert, refuting "the first sighting of any aircraft always
fires an alert, regardless of the value of now and of the configured
cooldown". -/
theorem first_sighting_claim_counterexample :
    (debounceStep 1800 (fun _ => none) (("abc123"), 0)).2 = false := by
  norm_num [debounceStep]

/-- C2 amended: for a hex with no prior recorded alert, the absent entry is
treated as last-alert time `0`, so the first sighting fires an alert exactly
when `now ≥ cooldown` (in particular it always fires for real epoch
timestamps, which far exceed any realistic cooldown). -/
theorem first_sighting_fires_iff_cooldown_elapsed (c : ℚ)
    (st : String → Option ℚ) (h : String) (now : ℚ) (habs : st h = none) :
    (debounceStep c st (h, now)).2 = true ↔ c ≤ now := by
  have hfst : st (h, now).1 = none := habs
  simp only [debounceStep, hfst, Option.getD_none, sub_zero]
  split_ifs with hlt
  · simp only [Bool.false_eq_true, false_iff]
    exact fun hcl => absurd hlt (not_lt.mpr hcl)
  · simp only [true_iff]
    exact not_lt.mp hlt

/-- Witness for the amended C2 at a concrete first sighting. -/
theorem first_sighting_fires_iff_cooldown_elapsed_witness :
    ((debounceStep 1800 (fun _ => none) (("abc123"), 1000000000)).2 = true ↔
      (1800 : ℚ) ≤ 1000000000) :=
  first_sighting_fires_iff_cooldown_elapsed 1800 (fun _ => none) ("abc123")
    1000000000 rfl

/-! ## GeofenceFilter (flight_mil_ita.py, lines 99-124)

Rings are lists of (lat, lon) pairs; a polygon is a list of rings, the first
being the outer ring and the rest holes.  Python float arithmetic is
modelled by exact rationals, the literal `1e-12` by `1/10^12`, and Python's
ZeroDivisionError by `Option` (a `none` result is a raised exception). -/

abbrev GeoRing := List (ℚ × ℚ)

abbrev GeoPolygon := List GeoRing

/-- The epsilon of the ray-casting tie-break, the literal `1e-12`. -/
def eps : ℚ := 1 / 10 ^ 12

/-- Python float division: raises (none) on a zero divisor. -/
def checkedDiv (a b : ℚ) : Option ℚ := if b = 0 then none else some (a / b)

/-- One iteration of the `point_in_ring` loop for the edge `e = (ring[i],
ring[(i+1) % n])`.  Mirrors line 106: the crossing test divides by
`yj - yi + 1e-12` only when `(yi > y) != (yj > y)`. -/
def edgeStep (x y : ℚ) (inside : Bool) (e : (ℚ × ℚ) × (ℚ × ℚ)) : Option Bool :=
  let yi := e.1.1
  let xi := e.1.2
  let yj := e.2.1
  let xj := e.2.2
  if (y < yi) = (y < yj) then some inside
  else
    match checkedDiv ((xj - xi) * (y - yi)) (yj - yi + eps) with
    | none => none
    | some q => some (if x < q + xi then !inside else inside)

/-- Ray casting over one ring (lines 99-108).  The index loop pairing
`ring[i]` with `ring[(i+1) % n]` is the zip of the ring with its one-step
rotation. -/
def point_in_ring (point : ℚ × ℚ) (ring : GeoRing) : Option Bool :=
  (ring.zip (ring.rotate 1)).foldlM (edgeStep point.2 point.1) false

/-- The hole loop of `point_in_polygon` (lines 115-117): the first hole
containing the point yields False; an exception propagates. -/
def holesLoop (point : ℚ × ℚ) : List GeoRing → Option Bool
  | [] => some true
  | hole :: rest =>
    match point_in_ring point hole with
    | none => none
    | some b => if b then some false else holesLoop point rest

/-- Containment in a polygon (lines 110-118): an empty ring list is False,
otherwise the point must be in the outer ring and in no hole. -/
def point_in_polygon (point : ℚ × ℚ) (polygon : GeoPolygon) : Option Bool :=
  match polygon with
  | [] => some false
  | outer :: holes =>
    match point_in_ring point outer with
    | none => none
    | some b => if b then holesLoop point holes else some false

/-- Python `any` over a generator: short-circuits on the first True,
propagates exceptions. -/
def anyOpt {α : Type} (p : α → Option Bool) : List α → Option Bool
  | [] => some false
  | a :: rest =>
    match p a with
    | none => none
    | some b => if b then some true else anyOpt p rest

/-- Containment in any configured polygon (lines 120-124): an unknown
latitude or longitude is never contained. -/
def in_any_polygon (lat lon : Option ℚ) (polygons : List GeoPolygon) :
    Option Bool :=
  match lat, lon with
  | some la, some lo => anyOpt (point_in_polygon (la, lo)) polygons
  | _, _ => some false

/-- The unit square ring of the specification, as (lat, lon) vertices. -/
def unitRing : GeoRing := [(0, 0), (0, 1), (1, 1), (1, 0)]

lemma holesLoop_ne_true (pt : ℚ × ℚ) :
    ∀ (holes : List GeoRing) (hole : GeoRing), hole ∈ holes →
      point_in_ring pt hole = some true → holesLoop pt holes ≠ some true
  | [], hole => by simp
  | hh :: rest, hole => by
    intro hmem htrue
    rcases List.mem_cons.mp hmem with rfl | hmem
    · simp [holesLoop, htrue]
    · cases hph : point_in_ring pt hh with
      | none => simp [holesLoop, hph]
      | some b =>
        cases b
        · simpa [holesLoop, hph] using
            holesLoop_ne_true pt rest hole hmem htrue
        · simp [holesLoop, hph]

/-- C4: the unit square contains (0.5, 0.5) and not (2, 2); and for any
polygon, a point inside the outer ring that is also inside one of the
declared hole rings is not contained (the containment test never returns
True for it). -/
theorem geofence_containment_cases (outer : GeoRing) (holes : List GeoRing)
    (pt : ℚ × ℚ) (houter : point_in_ring pt outer = some true)
    (hhole : ∃ hole ∈ holes, point_in_ring pt hole = some true) :
    point_in_polygon (1/2, 1/2) [unitRing] = some true ∧
    point_in_polygon (2, 2) [unitRing] = some false ∧
    point_in_polygon pt (outer :: holes) ≠ some true := by
  refine ⟨?_, ?_, ?_⟩
  · norm_num [point_in_polygon, point_in_ring, unitRing, edgeStep,
      checkedDiv, eps, List.rotate, holesLoop]
  · norm_num [point_in_polygon, point_in_ring, unitRing, edgeStep,
      checkedDiv, eps, List.rotate, holesLoop]
  · rcases hhole with ⟨hole, hmem, htrue⟩
    simp only [point_in_polygon, houter, if_true]
    exact holesLoop_ne_true pt holes hole hmem htrue

/-- Outer square ring (0,0)-(4,4) used as a witness polygon. -/
def outerSquare : GeoRing := [(0, 0), (0, 4), (4, 4), (4, 0)]

/-- Hole ring (1,1)-(3,3) used as a witness polygon hole. -/
def holeSquare : GeoRing := [(1, 1), (1, 3), (3, 3), (3, 1)]

/-- Witness for C4: the point (2,2) lies inside both `outerSquare` and the
hole `holeSquare`, and the polygon with that hole does not contain it. -/
theorem geofence_containment_cases_witness :
    point_in_polygon (1/2, 1/2) [unitRing] = some true ∧
    point_in_polygon (2, 2) [unitRing] = some false ∧
    point_in_polygon (2, 2) (outerSquare :: [holeSquare]) ≠ some true :=
  geofence_containment_cases outerSquare [holeSquare] (2, 2)
    (by norm_num [point_in_ring, outerSquare, edgeStep, checkedDiv, eps,
      List.rotate])
    ⟨holeSquare, by simp,
      by norm_num [point_in_ring, holeSquare, edgeStep, checkedDiv, eps,
        List.rotate]⟩

/-- C8: a point with unknown latitude or longitude is never contained, for
every polygon set. -/
theorem unknown_position_never_contained (lat lon : Option ℚ)
    (polygons : List GeoPolygon) (habs : lat = none ∨ lon = none) :
    in_any_polygon lat lon polygons = some false := by
  rcases habs with rfl | rfl
  · cases lon <;> rfl
  · cases lat <;> rfl

/-- Witness for C8 at a concrete missing latitude. -/
theorem unknown_position_never_contained_witness :
    in_any_polygon none (some 5) [[unitRing]] = some false :=
  unknown_position_never_contained none (some 5) [[unitRing]] (Or.inl rfl)

/-- C10 counterexample: the epsilon does not prevent a zero denominator.
For the ring [(1e-12, 0), (0, 1)] and a query point at latitude 0, the
first edge straddles the query latitude and `yj - yi + 1e-12 = 0`, so the
containment test raises ZeroDivisionError (modelled as none): it is not
true that `point_in_ring` never divides by zero for any ring. -/
theorem ray_cast_div_by_zero_counterexample :
    point_in_ring (0, 0) [(eps, 0), ((0 : ℚ), 1)] = none := by
  norm_num [point_in_ring, edgeStep, checkedDiv, eps, List.rotate]

lemma foldlM_edge_isSome (x y : ℚ) :
    ∀ (L : List ((ℚ × ℚ) × ℚ × ℚ)) (b : Bool),
      (∀ e ∈ L, (y < e.1.1) = (y < e.2.1) ∨ e.2.1 - e.1.1 + eps ≠ 0) →
      (L.foldlM (edgeStep x y) b).isSome = true
  | [], b => by
    intro _
    rfl
  | e :: rest, b => by
    intro hedges
    have he := hedges e (List.mem_cons_self e rest)
    have hsome : ∃ b2, edgeStep x y b e = some b2 := by
      rcases he with heq | hden
      · exact ⟨b, by simp [edgeStep, heq]⟩
      · by_cases hstr : (y < e.1.1) = (y < e.2.1)
        · exact ⟨b, by simp [edgeStep, hstr]⟩
        · refine ⟨if x < (e.2.2 - e.1.2) * (y - e.1.1) /
              (e.2.1 - e.1.1 + eps) + e.1.2 then !b else b, ?_⟩
          simp [edgeStep, hstr, checkedDiv, hden]
    rcases hsome with ⟨b2, hb2⟩
    rw [List.foldlM_cons, hb2]
    simpa using foldlM_edge_isSome x y rest b2
      (fun z hz => hedges z (List.mem_cons_of_mem e hz))

/-- C10 amended: `point_in_polygon` on an empty ring list returns False, and
the denominator `yj - yi + 1e-12` is only evaluated on edges whose endpoints
straddle the query latitude, so the test cannot fail whenever every
straddling edge has a nonzero adjusted denominator; zero denominators (and
hence runtime failures) remain possible when `yj - yi = -1e-12` exactly. -/
theorem ray_cast_totality_amended :
    (∀ pt : ℚ × ℚ, point_in_polygon pt [] = some false) ∧
    ∀ (pt : ℚ × ℚ) (ring : GeoRing),
      (∀ e ∈ ring.zip (ring.rotate 1),
        (pt.1 < e.1.1) = (pt.1 < e.2.1) ∨ e.2.1 - e.1.1 + eps ≠ 0) →
      (point_in_ring pt ring).isSome = true := by
  constructor
  · intro pt
    rfl
  · intro pt ring hedges
    exact foldlM_edge_isSome pt.2 pt.1 (ring.zip (ring.rotate 1)) false hedges

/-- Witness for the amended C10: on the unit square no straddling edge has a
zero adjusted denominator, so the test terminates without failure. -/
theorem ray_cast_totality_amended_witness :
    (point_in_ring (1/2, 1/2) unitRing).isSome = true :=
  ray_cast_totality_amended.2 (1/2, 1/2) unitRing (by
    intro e he
    simp only [unitRing, List.rotate] at he
    simp at he
    rcases he with rfl | rfl | rfl | rfl <;> norm_num [eps])

/-! ## Poller (flight_mil_ita.py, lines 126-151 and 201-285)

The feed response, the per-record normalization, the geofence filtering of
line 240-241 (which tests Python truthiness of `ac.lat` / `ac.lon`), and one
poll cycle.  The retry loop of `fetch_military` is modelled by the list of
the outcomes of its (at most HTTP_RETRIES + 1) attempts. -/

/-- A normalized observation, the `Aircraft` dataclass. -/
structure Aircraft where
  hex : String
  flight : String
  lat : Option ℚ
  lon : Option ℚ
  alt_baro : Option ℤ
  gs : Option ℚ
  ts : Option ℚ
  reg : Option String
  squawk : Option String
  ground : Option Bool
  model_desc : Option String
  model_t : Option String
  is_mil : Bool

/-- A raw feed record: the values the normalization block reads via `.get`
(absent key = none; a `safe_int`/`safe_float` parse failure is likewise
none).  The `r`/`reg` fallback and the squawk stringification are collapsed
into single already-decoded optional fields. -/
structure RawAc where
  hex : Option String
  flight : Option String
  lat : Option ℚ
  lon : Option ℚ
  alt_baro : Option ℤ
  gs : Option ℚ
  seen_ts : Option ℚ
  reg : Option String
  squawk : Option String
  ground : Option Bool
  desc : Option String
  t : Option String

/-- Normalization of one raw record (lines 218-238). -/
def normalize (r : RawAc) : Aircraft :=
  { hex := (r.hex.getD (String.mk [])).toLower
    flight := (r.flight.getD (String.mk [])).trim
    lat := r.lat
    lon := r.lon
    alt_baro := r.alt_baro
    gs := r.gs
    ts := r.seen_ts
    reg := r.reg
    squawk := r.squawk
    ground := r.ground
    model_desc := r.desc
    model_t := r.t
    is_mil := true }

/-- Python truthiness of an optional float: None and 0.0 are falsy. -/
def truthy (v : Option ℚ) : Bool :=
  match v with
  | none => false
  | some q => q != 0

/-- The guard of the geofence list comprehension (line 241):
`ac.lat and ac.lon and in_any_polygon(ac.lat, ac.lon, polygons)`. -/
def geoKeep (polygons : List GeoPolygon) (ac : Aircraft) : Option Bool :=
  if truthy ac.lat then
    if truthy ac.lon then in_any_polygon ac.lat ac.lon polygons
    else some false
  else some false

/-- Python list comprehension with a fallible guard: an exception raised
while filtering propagates (none). -/
def filterOpt {α : Type} (p : α → Option Bool) : List α → Option (List α)
  | [] => some []
  | x :: rest =>
    match p x with
    | none => none
    | some b =>
      match filterOpt p rest with
      | none => none
      | some r => some (if b then x :: r else r)

/-- The geofence step of the poll loop (lines 240-241): applied only when a
non-empty polygon set is configured. -/
def geofenceStep (polygons : List GeoPolygon) (aircraft : List Aircraft) :
    Option (List Aircraft) :=
  if polygons = [] then some aircraft
  else filterOpt (geoKeep polygons) aircraft

/-- Shape of a decoded feed response (lines 133-141): an object with an `ac`
list, an object with an `aircraft` list, a bare list, or anything else. -/
inductive FeedResp where
  | acObj (ac : List RawAc) : FeedResp
  | aircraftObj (aircraft : List RawAc) : FeedResp
  | bareList (l : List RawAc) : FeedResp
  | otherShape : FeedResp

/-- Extraction of the record list from a decoded response. -/
def parseFeedResp : FeedResp → List RawAc
  | FeedResp.acObj l => l
  | FeedResp.aircraftObj l => l
  | FeedResp.bareList l => l
  | FeedResp.otherShape => []

/-- The retry loop of `fetch_military` (lines 126-151) over the outcomes of
its successive attempts: the first successful attempt is parsed; when every
attempt fails the function logs a warning and returns the empty batch. -/
def fetchMilitary : List (Except String FeedResp) → List RawAc
  | [] => []
  | Except.ok r :: _ => parseFeedResp r
  | Except.error _ :: rest => fetchMilitary rest

/-- One poll cycle after the fetch (lines 217-283): normalize every record,
apply the geofence step, then run the debounce over the surviving
observations, `times i` being the `time.time()` value read for the i-th of
them.  The emitted sightings are exactly the alerts and the CSV rows of the
cycle; none is a cycle aborted by an uncaught exception. -/
def pollCycle (cooldown : ℚ) (polygons : List GeoPolygon)
    (last : String → Option ℚ) (times : ℕ → ℚ) (merged : List RawAc) :
    Option ((String → Option ℚ) × List (String × ℚ)) :=
  let aircraft := merged.map normalize
  match geofenceStep polygons aircraft with
  | none => none
  | some kept =>
    some (runDebounce cooldown last
      (kept.enum.map (fun p => (p.2.hex, times p.1))))

lemma fetchMilitary_all_fail :
    ∀ (l : List (Except String FeedResp)),
      (∀ a ∈ l, ∃ e, a = Except.error e) → fetchMilitary l = []
  | [] => by
    intro _
    rfl
  | a :: rest => by
    intro hf
    have htail := fetchMilitary_all_fail rest
      (fun x hx => hf x (List.mem_cons_of_mem a hx))
    rcases hf a (List.mem_cons_self a rest) with ⟨e, rfl⟩
    simpa [fetchMilitary] using htail

/-- C7: when every retry attempt of the feed fetch fails, the fetch returns
the empty batch, and the poll cycle on that batch completes without raising,
with the last-alert state unchanged and zero alerts and zero CSV rows. -/
theorem fetch_failure_empty_cycle (attempts : List (Except String FeedResp))
    (cooldown : ℚ) (polygons : List GeoPolygon)
    (last : String → Option ℚ) (times : ℕ → ℚ)
    (hfail : ∀ a ∈ attempts, ∃ e, a = Except.error e) :
    fetchMilitary attempts = [] ∧
    pollCycle cooldown polygons last times (fetchMilitary attempts) =
      some (last, []) := by
  have hempty := fetchMilitary_all_fail attempts hfail
  refine ⟨hempty, ?_⟩
  rw [hempty]
  by_cases hp : polygons = []
  · simp [pollCycle, geofenceStep, hp, filterOpt, runDebounce]
  · simp [pollCycle, geofenceStep, hp, filterOpt, runDebounce]

/-- Witness for C7: three failed attempts, a configured polygon set, an
empty resulting cycle. -/
theorem fetch_failure_empty_cycle_witness :
    fetchMilitary [Except.error ("timeout"), Except.error ("http 500"),
        Except.error ("timeout")] = [] ∧
    pollCycle 1800 [[unitRing]] (fun _ => none) (fun _ => 1000000)
      (fetchMilitary [Except.error ("timeout"), Except.error ("http 500"),
        Except.error ("timeout")]) = some ((fun _ => none), []) :=
  fetch_failure_empty_cycle
    [Except.error ("timeout"), Except.error ("http 500"),
      Except.error ("timeout")]
    1800 [[unitRing]] (fun _ => none) (fun _ => 1000000) (by simp)

lemma filterOpt_not_mem {α : Type} (p : α → Option Bool) (a : α)
    (hpa : p a = some false) :
    ∀ (l l2 : List α), filterOpt p l = some l2 → a ∉ l2
  | [] => by
    intro l2 h
    simp only [filterOpt, Option.some.injEq] at h
    simp [← h]
  | x :: rest => by
    intro l2 h
    cases hx : p x with
    | none => simp [filterOpt, hx] at h
    | some b =>
      cases hr : filterOpt p rest with
      | none => simp [filterOpt, hx, hr] at h
      | some r =>
        have hnr : a ∉ r := filterOpt_not_mem p a hpa rest r hr
        simp only [filterOpt, hx, hr, Option.some.injEq] at h
        subst h
        cases b with
        | false => simpa using hnr
        | true =>
          intro hmem
          rcases List.mem_cons.mp hmem with rfl | hmem
          · rw [hpa] at hx
            simp at hx
          · exact hnr hmem

/-- Square ring around the origin used to exhibit a contained point with
latitude 0. -/
def squareRing : GeoRing := [(-1, -1), (-1, 1), (1, 1), (1, -1)]

/-- A concrete observation at latitude exactly 0, inside `squareRing`. -/
def acZeroLat : Aircraft :=
  { hex := ("ae1234"), flight := (String.mk []), lat := some 0,
    lon := some (1/2), alt_baro := none, gs := none, ts := none,
    reg := none, squawk := none, ground := none, model_desc := none,
    model_t := none, is_mil := true }

/-- C9: with a non-empty polygon set configured, the geofence step discards
every observation whose latitude or longitude equals 0.0 (the guard tests
Python truthiness, not presence) — even though such a point can lie inside
a configured polygon, as the concrete conjuncts show: (0, 1/2) is contained
in `squareRing`, yet the guard evaluates to False on `acZeroLat`. -/
theorem geofence_discards_zero_coords :
    (∀ (polygons : List GeoPolygon) (ac : Aircraft) (acs l : List Aircraft),
      polygons ≠ [] → (ac.lat = some 0 ∨ ac.lon = some 0) →
      geofenceStep polygons acs = some l → ac ∉ l) ∧
    in_any_polygon (some 0) (some (1/2)) [[squareRing]] = some true ∧
    geoKeep [[squareRing]] acZeroLat = some false := by
  refine ⟨?_, ?_, ?_⟩
  · intro polygons ac acs l hpoly hzero hstep
    have hkeep : geoKeep polygons ac = some false := by
      rcases hzero with h0 | h0 <;> simp [geoKeep, truthy, h0]
    unfold geofenceStep at hstep
    rw [if_neg hpoly] at hstep
    exact filterOpt_not_mem (geoKeep polygons) ac hkeep acs l hstep
  · norm_num [in_any_polygon, anyOpt, point_in_polygon, point_in_ring,
      squareRing, edgeStep, checkedDiv, eps, List.rotate, holesLoop]
  · simp [geoKeep, truthy, acZeroLat]

/-- Witness for C9: the zero-latitude observation is dropped from the
filtered list even though its position is inside the configured polygon. -/
theorem geofence_discards_zero_coords_witness :
    acZeroLat ∉ ([] : List Aircraft) :=
  geofence_discards_zero_coords.1 [[squareRing]] acZeroLat [acZeroLat] []
    (by simp) (Or.inl rfl)
    (by simp [geofenceStep, filterOpt, geoKeep, truthy, acZeroLat])

/-! ## EventStore (publish_adsb_report.py, lines 59-122)

The SQLite table `events` is modelled as a list of rows in insertion
order.  CSV rows read by `csv.DictReader` from the sink CSV (whose header
always carries all eleven columns) are strings, so every field is a
`String`; `INSERT OR IGNORE` with `PRIMARY KEY (first_seen_utc, hex)`
drops a row whose key pair is already present. -/

/-- A persisted event row; also a CSV row of the sink schema. -/
structure EventRecord where
  first_seen_utc : String
  hex : String
  callsign : String
  reg : String
  model_t : String
  lat : String
  lon : String
  alt_ft : String
  gs_kt : String
  squawk : String
  ground : String
deriving DecidableEq

/-- Equality of the composite primary key (first_seen_utc, hex). -/
def sameKey (a b : EventRecord) : Bool :=
  a.first_seen_utc == b.first_seen_utc && a.hex == b.hex

/-- One `INSERT OR IGNORE` (lines 95-112): a conflicting insert is silently
dropped, otherwise the row is appended. -/
def insertOrIgnore (store : List EventRecord) (r : EventRecord) :
    List EventRecord :=
  if store.any (fun s => sameKey s r) then store else store ++ [r]

/-- The ingestion loop of `csv_to_db` (lines 83-114). -/
def csv_to_db (store : List EventRecord) (rows : List EventRecord) :
    List EventRecord :=
  rows.foldl insertOrIgnore store

lemma any_insertOrIgnore (store : List EventRecord) (r : EventRecord)
    (p : EventRecord → Bool) (h : store.any p = true) :
    (insertOrIgnore store r).any p = true := by
  unfold insertOrIgnore
  split
  · exact h
  · simp [List.any_append, h]

lemma insertOrIgnore_key (store : List EventRecord) (r : EventRecord) :
    (insertOrIgnore store r).any (fun s => sameKey s r) = true := by
  unfold insertOrIgnore
  by_cases hany : store.any (fun s => sameKey s r) = true
  · rw [if_pos hany]
    exact hany
  · rw [if_neg hany]
    simp [List.any_append, sameKey]

lemma csv_to_db_any (p : EventRecord → Bool) :
    ∀ (rows : List EventRecord) (store : List EventRecord),
      store.any p = true → (csv_to_db store rows).any p = true
  | [] => fun _ h => h
  | x :: rest => fun store h =>
    csv_to_db_any p rest (insertOrIgnore store x)
      (any_insertOrIgnore store x p h)

lemma csv_to_db_key_present :
    ∀ (rows : List EventRecord) (store : List EventRecord),
      ∀ r ∈ rows, (csv_to_db store rows).any (fun s => sameKey s r) = true
  | [] => by
    intro store r hr
    simp at hr
  | x :: rest => by
    intro store r hr
    rcases List.mem_cons.mp hr with rfl | hr
    · exact csv_to_db_any (fun s => sameKey s r) rest (insertOrIgnore store r)
        (insertOrIgnore_key store r)
    · exact csv_to_db_key_present rest (insertOrIgnore store x) r hr

lemma csv_to_db_noop :
    ∀ (rows : List EventRecord) (store : List EventRecord),
      (∀ r ∈ rows, store.any (fun s => sameKey s r) = true) →
      csv_to_db store rows = store
  | [] => fun store _ => rfl
  | x :: rest => by
    intro store hall
    have hx : insertOrIgnore store x = store := by
      unfold insertOrIgnore
      rw [if_pos (hall x (List.mem_cons_self x rest))]
    show csv_to_db (insertOrIgnore store x) rest = store
    rw [hx]
    exact csv_to_db_noop rest store
      (fun r hr => hall r (List.mem_cons_of_mem x hr))

/-- C3: ingesting the same CSV a second time leaves the store exactly as it
was after the first ingestion — every row of the CSV already has a
key-matching row in the store, so every insert is silently ignored; the
content (hence the row count) is unchanged and no error is raised. -/
theorem csv_to_db_idempotent (store : List EventRecord)
    (rows : List EventRecord) :
    csv_to_db (csv_to_db store rows) rows = csv_to_db store rows :=
  csv_to_db_noop rows (csv_to_db store rows)
    (fun r hr => csv_to_db_key_present rows store r hr)

/-! ## Range query (publish_adsb_report.py, lines 116-122)

`SELECT * FROM events WHERE substr(first_seen_utc,1,10) BETWEEN ? AND ?
ORDER BY datetime(first_seen_utc) ASC`.  String comparison (BETWEEN under
the BINARY collation) is byte order; `datetime()` is modelled from SQLite's
date.c: it accepts `YYYY-MM-DD[ HH:MM[:SS[.fff]]]` with an optional `Z` or
`±HH:MM` timezone suffix and yields NULL on anything else — in particular
on the ` UTC` suffix that `now_utc_str` of flight_mil_ita.py appends. -/

/-- Byte-order strict comparison of two character lists (BINARY collation). -/
def bytesLt : List Char → List Char → Bool
  | [], [] => false
  | [], _ :: _ => true
  | _ :: _, [] => false
  | a :: arest, b :: brest =>
    if a.toNat < b.toNat then true
    else if b.toNat < a.toNat then false
    else bytesLt arest brest

/-- Byte-order comparison, non-strict. -/
def strLe (a b : String) : Bool := !(bytesLt b.toList a.toList)

/-- Byte-order comparison, strict. -/
def strLt (a b : String) : Bool := bytesLt a.toList b.toList

/-- SQLite `substr(s, 1, 10)`. -/
def substr10 (s : String) : String := String.mk (s.toList.take 10)

def skipSpaces : List Char → List Char
  | [] => []
  | c :: rest => if c = ' ' then skipSpaces rest else c :: rest

def takeDigits : List Char → List Char
  | [] => []
  | c :: rest => if c.isDigit then takeDigits rest else c :: rest

def digitVal (c : Char) : Option ℕ :=
  if c.isDigit then some (c.toNat - 48) else none

def digits2 : List Char → Option (ℕ × List Char)
  | a :: b :: rest =>
    match digitVal a, digitVal b with
    | some x, some y => some (x * 10 + y, rest)
    | _, _ => none
  | _ => none

def digits4 : List Char → Option (ℕ × List Char)
  | a :: b :: c :: d :: rest =>
    match digitVal a, digitVal b, digitVal c, digitVal d with
    | some x, some y, some z, some w =>
      some (x * 1000 + y * 100 + z * 10 + w, rest)
    | _, _, _, _ => none
  | _ => none

def expectChar (c : Char) : List Char → Option (List Char)
  | x :: rest => if x = c then some rest else none
  | [] => none

/-- Modelled from SQLite date.c `parseTimezone`: after optional spaces,
either end of string, `Z`/`z`, or a signed `HH:MM` offset; any other
trailing text (such as `UTC`) is a parse error. -/
def tzOk (l : List Char) : Bool :=
  match skipSpaces l with
  | [] => true
  | c :: rest =>
    if c = 'Z' ∨ c = 'z' then (skipSpaces rest).isEmpty
    else if c = '+' ∨ c = '-' then
      match digits2 rest with
      | none => false
      | some (_, r2) =>
        match expectChar ':' r2 with
        | none => false
        | some r3 =>
          match digits2 r3 with
          | none => false
          | some (_, r4) => (skipSpaces r4).isEmpty
    else false

/-- Modelled from SQLite date.c `parseHhMmSs`: `HH:MM`, optional `:SS` with
an optional fractional part, then the timezone suffix. -/
def timeOk (l : List Char) : Bool :=
  match digits2 l with
  | none => false
  | some (hh, r1) =>
    if hh > 24 then false
    else
      match expectChar ':' r1 with
      | none => false
      | some r2 =>
        match digits2 r2 with
        | none => false
        | some (mm, r3) =>
          if mm > 59 then false
          else
            match expectChar ':' r3 with
            | none => tzOk r3
            | some r4 =>
              match digits2 r4 with
              | none => false
              | some (ss, r5) =>
                if ss > 59 then false
                else
                  match r5 with
                  | '.' :: r6 =>
                    match r6 with
                    | c :: _ =>
                      if c.isDigit then tzOk (takeDigits r6) else false
                    | [] => false
                  | _ => tzOk r5

/-- Modelled from SQLite date.c `parseYyyyMmDd`: whether `datetime(s)` is
non-NULL for a `YYYY-MM-DD[ HH:MM:SS]`-shaped string. -/
def sqliteDatetimeOk (s : String) : Bool :=
  match digits4 s.toList with
  | none => false
  | some (_, r1) =>
    match expectChar '-' r1 with
    | none => false
    | some r2 =>
      match digits2 r2 with
      | none => false
      | some (mo, r3) =>
        if mo = 0 ∨ mo > 12 then false
        else
          match expectChar '-' r3 with
          | none => false
          | some r4 =>
            match digits2 r4 with
            | none => false
            | some (d, r5) =>
              if d = 0 ∨ d > 31 then false
              else
                match r5 with
                | [] => true
                | c :: rest =>
                  if c = ' ' ∨ c = 'T' then timeOk rest else false

/-- The ORDER BY sort key `datetime(first_seen_utc)`: none models NULL.
The normalization of an accepted string is omitted as irrelevant here —
only NULL-ness decides the ordering of the rows at hand. -/
def sqliteDatetimeKey (s : String) : Option String :=
  if sqliteDatetimeOk s then some s else none

/-- Ascending order on sort keys: NULL sorts before every non-NULL value. -/
def keyLt (a b : Option String) : Bool :=
  match a, b with
  | none, none => false
  | none, some _ => true
  | some _, none => false
  | some x, some y => strLt x y

/-- Row comparison of the ORDER BY clause. -/
def rowKeyLt (a b : EventRecord) : Bool :=
  keyLt (sqliteDatetimeKey a.first_seen_utc) (sqliteDatetimeKey b.first_seen_utc)

/-- ORDER BY ... ASC as a stable insertion: each scanned row is placed
before the first already-placed row with a strictly greater key, so rows
with equal keys (in particular the all-NULL keys produced by the ` UTC`
timestamps) stay in table-scan order. -/
def orderInsert (lt : EventRecord → EventRecord → Bool) (r : EventRecord) :
    List EventRecord → List EventRecord
  | [] => [r]
  | x :: rest => if lt r x then r :: x :: rest else x :: orderInsert lt r rest

/-- Sort of the result set by the ORDER BY key. -/
def orderBy (lt : EventRecord → EventRecord → Bool)
    (rows : List EventRecord) : List EventRecord :=
  rows.foldl (fun acc r => orderInsert lt r acc) []

/-- The WHERE clause: `substr(first_seen_utc,1,10) BETWEEN start AND end`. -/
def inDayRange (start_day end_day : String) (r : EventRecord) : Bool :=
  strLe start_day (substr10 r.first_seen_utc) &&
    strLe (substr10 r.first_seen_utc) end_day

/-- The query of lines 116-122. -/
def query_events_by_day_range (store : List EventRecord)
    (start_day end_day : String) : List EventRecord :=
  orderBy rowKeyLt (store.filter (inDayRange start_day end_day))

/-- An in-range row with the earlier timestamp, ingested second. -/
def rowEarly : EventRecord :=
  { first_seen_utc := "2024-03-15 09:00:00 UTC", hex := "abc123",
    callsign := "", reg := "", model_t := "", lat := "", lon := "",
    alt_ft := "", gs_kt := "", squawk := "", ground := "" }

/-- An in-range row with the later timestamp, ingested first. -/
def rowLate : EventRecord :=
  { first_seen_utc := "2024-03-15 10:00:00 UTC", hex := "def456",
    callsign := "", reg := "", model_t := "", lat := "", lon := "",
    alt_ft := "", gs_kt := "", squawk := "", ground := "" }

/-- C6 evaluation at the failing input: `datetime()` is NULL on the
`YYYY-MM-DD HH:MM:SS UTC` strings that `now_utc_str` produces, so the ORDER
BY clause compares only NULLs and the query returns the rows in store
order — here the later-timestamped row first — instead of ascending by
timestamp as the claim states. -/
theorem query_order_bug_eval :
    sqliteDatetimeKey ("2024-03-15 09:00:00 UTC") = none ∧
    query_events_by_day_range [rowLate, rowEarly]
        ("2024-03-15") ("2024-03-15") = [rowLate, rowEarly] ∧
    strLt rowEarly.first_seen_utc rowLate.first_seen_utc = true := by
  refine ⟨?_, ?_, ?_⟩
  · decide
  · decide
  · decide

/-! ## ReportAggregator period bounds (publish_adsb_report.py, lines 170-190)

Python `datetime.date` arithmetic is modelled by a proleptic-Gregorian
calendar date: `weekday()` (Monday = 0) through the standard ordinal,
`timedelta` subtraction/addition one day at a time, `replace(day=1)` and
the December→January rollover directly. -/

/-- A calendar date, as Python's `datetime.date`. -/
structure PDate where
  year : ℕ
  month : ℕ
  day : ℕ
deriving DecidableEq

/-- Gregorian leap year test. -/
def isLeap (y : ℕ) : Bool := (y % 4 == 0 && y % 100 != 0) || (y % 400 == 0)

/-- Number of days of a month. -/
def daysInMonth (y m : ℕ) : ℕ :=
  if m = 2 then (if isLeap y then 29 else 28)
  else if m = 4 ∨ m = 6 ∨ m = 9 ∨ m = 11 then 30
  else 31

/-- Days in the years before year `y` (proleptic Gregorian). -/
def daysBeforeYear (y : ℕ) : ℕ :=
  365 * (y - 1) + (y - 1) / 4 - (y - 1) / 100 + (y - 1) / 400

/-- Days in the months of year `y` before month `m`. -/
def daysBeforeMonth (y m : ℕ) : ℕ :=
  ((List.range (m - 1)).map (fun i => daysInMonth y (i + 1))).sum

/-- Python `date.toordinal()`: 0001-01-01 is day 1. -/
def toOrdinal (d : PDate) : ℕ :=
  daysBeforeYear d.year + daysBeforeMonth d.year d.month + d.day

/-- Python `date.weekday()`: Monday = 0 (0001-01-01 was a Monday). -/
def weekday (d : PDate) : ℕ := (toOrdinal d + 6) % 7

/-- The day before a date. -/
def prevDay (d : PDate) : PDate :=
  if d.day > 1 then ⟨d.year, d.month, d.day - 1⟩
  else if d.month > 1 then ⟨d.year, d.month - 1, daysInMonth d.year (d.month - 1)⟩
  else ⟨d.year - 1, 12, 31⟩

/-- The day after a date. -/
def nextDay (d : PDate) : PDate :=
  if d.day < daysInMonth d.year d.month then ⟨d.year, d.month, d.day + 1⟩
  else if d.month < 12 then ⟨d.year, d.month + 1, 1⟩
  else ⟨d.year + 1, 1, 1⟩

/-- Python `date - timedelta(days=n)`. -/
def subDays (d : PDate) : ℕ → PDate
  | 0 => d
  | n + 1 => subDays (prevDay d) n

/-- Python `date + timedelta(days=n)`. -/
def addDays (d : PDate) : ℕ → PDate
  | 0 => d
  | n + 1 => addDays (nextDay d) n

/-- Zero-padded two-digit rendering. -/
def pad2 (n : ℕ) : String :=
  if n < 10 then String.mk ['0'] ++ toString n else toString n

/-- Zero-padded four-digit rendering. -/
def pad4 (n : ℕ) : String :=
  if n < 10 then String.mk ['0', '0', '0'] ++ toString n
  else if n < 100 then String.mk ['0', '0'] ++ toString n
  else if n < 1000 then String.mk ['0'] ++ toString n
  else toString n

/-- `strftime("%Y-%m-%d")`. -/
def fmtISO (d : PDate) : String :=
  pad4 d.year ++ String.mk ['-'] ++ pad2 d.month ++ String.mk ['-'] ++ pad2 d.day

/-- `strftime("%d.%m.%y")`. -/
def fmtDots (d : PDate) : String :=
  pad2 d.day ++ String.mk ['.'] ++ pad2 d.month ++ String.mk ['.'] ++
    pad2 (d.year % 100)

/-- `strftime("%m.%y")`. -/
def fmtMon (d : PDate) : String :=
  pad2 d.month ++ String.mk ['.'] ++ pad2 (d.year % 100)

/-- `get_period_bounds` (lines 170-190): (start, end, label) for a period
kind and a reference local date. -/
def get_period_bounds (period : String) (today : PDate) :
    String × String × String :=
  if period = "daily" then (fmtISO today, fmtISO today, fmtDots today)
  else if period = "weekly" then
    let start_day := subDays today (weekday today)
    let end_day := addDays start_day 6
    (fmtISO start_day, fmtISO end_day,
      fmtDots start_day ++ String.mk [' ', '→', ' '] ++ fmtDots end_day)
  else if period = "monthly" then
    let start_day : PDate := ⟨today.year, today.month, 1⟩
    let next_month : PDate :=
      if start_day.month = 12 then ⟨start_day.year + 1, 1, 1⟩
      else ⟨start_day.year, start_day.month + 1, 1⟩
    let end_day := subDays next_month 1
    (fmtISO start_day, fmtISO end_day, fmtMon start_day)
  else (fmtISO today, fmtISO today, fmtDots today)

/-- C5: `get_period_bounds` is a pure function of the period kind and the
reference local date, and on the specified reference dates it yields:
daily 2024-03-15 → ("2024-03-15", "2024-03-15", "15.03.24");
weekly 2024-03-15 (a Friday, weekday 4) → start "2024-03-11" (the most
recent Monday) and end "2024-03-17" (Sunday); monthly 2024-12-10 →
("2024-12-01", "2024-12-31") with the December→January rollover. -/
theorem get_period_bounds_cases :
    get_period_bounds ("daily") ⟨2024, 3, 15⟩ =
      ("2024-03-15", "2024-03-15", "15.03.24") ∧
    get_period_bounds ("weekly") ⟨2024, 3, 15⟩ =
      ("2024-03-11", "2024-03-17", "11.03.24 → 17.03.24") ∧
    get_period_bounds ("monthly") ⟨2024, 12, 10⟩ =
      ("2024-12-01", "2024-12-31", "12.24") := by
  refine ⟨?_, ?_, ?_⟩
  · decide
  · decide
  · decide

end FlightMilIta
